import Mathlib

/-!
Verification development for the midpoint-agi repository.

The Python sources are shallowly embedded:
* `src/midpoint/agents/models.py` — the data model (`State`, `Goal`,
  `StrategyPlan`, `TaskContext`) becomes Lean structures; Python `float`
  `success_threshold` is modelled as a rational number, Python `int` as `Int`.
* `src/midpoint/agents/goal_decomposer.py` — `_parse_response`,
  `_validate_strategy`, `_create_user_prompt` and `decompose_goal` become pure
  Lean functions.  Exceptions become `Except` values; the external OpenAI call
  becomes an explicit oracle argument, and `decompose_goal` additionally
  returns the list of prompts actually submitted to that oracle so that "no
  external call was made" is expressible.
* `src/midpoint/agents/tools.py` — the git subprocess layer is embedded
  against a `RepoEnv` record describing what each underlying git command
  would return (exit code, stdout, stderr); mutating operations additionally
  return the list of mutating git commands they actually issued.

Python string primitives (`str.lower`, `str.strip`, `str.split`,
`str.splitlines`, `in`, `startswith`, `int(...)`) are modelled by structurally
recursive functions on `List Char`, restricted to ASCII text as used by the
program, so every definition evaluates inside the kernel.
-/

/-- Does list `s` start with list `p`?  Models Python `str.startswith` on the
underlying character lists. -/
def listStarts : List Char → List Char → Bool
  | _, [] => true
  | [], _ :: _ => false
  | a :: as, b :: bs => a == b && listStarts as bs

/-- Does `hay` contain `needle` as a contiguous sublist?  Models the Python
substring test `needle in hay`. -/
def listContains : List Char → List Char → Bool
  | [], needle => listStarts [] needle
  | hay@(_ :: t), needle => listStarts hay needle || listContains t needle

/-- Python `s.startswith(p)` for strings. -/
def strStarts (s p : String) : Bool := listStarts s.data p.data

/-- Python `needle in hay` for strings. -/
def strContains (hay needle : String) : Bool := listContains hay.data needle.data

/-- Python `str.lower` (ASCII). -/
def pyLower (s : String) : String := String.mk (s.data.map Char.toLower)

/-- Python `str.strip()` with no argument: remove whitespace from both ends. -/
def pyStrip (s : String) : String :=
  String.mk (((s.data.dropWhile Char.isWhitespace).reverse.dropWhile
    Char.isWhitespace).reverse)

/-- Python `str.strip(chars)`: remove any character of `chars` from both
ends. -/
def pyStripChars (chars : List Char) (s : String) : String :=
  String.mk (((s.data.dropWhile (chars.contains ·)).reverse.dropWhile
    (chars.contains ·)).reverse)

/-- Helper for `pySplitNL`: split a character list at newline characters,
keeping empty segments (Python `str.split("\n")` semantics). -/
def splitNLAux : List Char → List Char → List String
  | [], acc => [String.mk acc.reverse]
  | c :: cs, acc =>
    if c = '\n' then String.mk acc.reverse :: splitNLAux cs []
    else splitNLAux cs (c :: acc)

/-- Python `s.split("\n")`. -/
def pySplitNL (s : String) : List String := splitNLAux s.data []

/-- Helper for `pySplitlines`: like `splitNLAux` but a trailing newline does
not produce a final empty segment (Python `str.splitlines` semantics for
newline-terminated text). -/
def splitlinesAux : List Char → List Char → List String
  | [], acc => if acc.isEmpty then [] else [String.mk acc.reverse]
  | c :: cs, acc =>
    if c = '\n' then String.mk acc.reverse :: splitlinesAux cs []
    else splitlinesAux cs (c :: acc)

/-- Python `s.splitlines()` (the program only ever feeds it `\n`-separated
git output). -/
def pySplitlines (s : String) : List String := splitlinesAux s.data []

/-- Helper for `pySplitWs`: split at runs of whitespace, discarding empty
segments (Python `str.split()` with no argument). -/
def splitWsAux : List Char → List Char → List String
  | [], acc => if acc.isEmpty then [] else [String.mk acc.reverse]
  | c :: cs, acc =>
    if c.isWhitespace then
      if acc.isEmpty then splitWsAux cs []
      else String.mk acc.reverse :: splitWsAux cs []
    else splitWsAux cs (c :: acc)

/-- Python `s.split()` with no argument. -/
def pySplitWs (s : String) : List String := splitWsAux s.data []

/-- Everything after the first `':'`; models `line.split(":", 1)[1]`.  The
program only applies it to lines guaranteed (by a `startswith` guard) to
contain a colon, so the no-colon fallback `""` is unreachable there. -/
def afterColonAux : List Char → List Char
  | [] => []
  | c :: cs => if c = ':' then cs else afterColonAux cs

/-- Python `line.split(":", 1)[1]` under a guard ensuring a colon exists. -/
def afterColon (s : String) : String := String.mk (afterColonAux s.data)

/-- Value of an ASCII decimal digit. -/
def digitVal (c : Char) : Option Nat :=
  if '0' ≤ c ∧ c ≤ '9' then some (c.toNat - '0'.toNat) else none

/-- Accumulate decimal digits; `none` on any non-digit. -/
def digitsToNat : List Char → Nat → Option Nat
  | [], acc => some acc
  | c :: cs, acc =>
    match digitVal c with
    | some d => digitsToNat cs (acc * 10 + d)
    | none => none

/-- Parse a non-empty all-digit character list. -/
def parseDigits (l : List Char) : Option Nat :=
  if l.isEmpty then none else digitsToNat l 0

/-- Python `int(s)` on an already-stripped ASCII string: optional sign
followed by at least one decimal digit; `none` models the `ValueError`
branch. -/
def pyInt (s : String) : Option Int :=
  match s.data with
  | '-' :: rest => (parseDigits rest).map (fun n => -(n : Int))
  | '+' :: rest => (parseDigits rest).map (fun n => (n : Int))
  | l => (parseDigits l).map (fun n => (n : Int))

/-! ## Data model (`models.py`) -/

/-- `models.State`. -/
structure State where
  git_hash : String
  description : String
  repository_path : Option String := none
  deriving DecidableEq

/-- `models.Goal`; `success_threshold` (a Python float) is modelled as a
rational number. -/
structure Goal where
  description : String
  validation_criteria : List String
  success_threshold : ℚ
  deriving DecidableEq

/-- The two entries `_parse_response` stores in `StrategyPlan.metadata`. -/
structure PlanMetadata where
  strategy_description : String
  raw_response : String
  deriving DecidableEq

/-- `models.StrategyPlan`. -/
structure StrategyPlan where
  steps : List String
  reasoning : String
  estimated_points : Int
  metadata : PlanMetadata
  deriving DecidableEq

/-- `models.TaskContext`.  The field is declared as `Goal` in Python, but
`decompose_goal` guards against `None` (`if not context.goal`), so it is
modelled as `Option Goal`; `execution_history` records are opaque to the
embedded code and modelled as strings. -/
structure TaskContext where
  state : State
  goal : Option Goal
  iteration : Int
  points_consumed : Int
  total_budget : Int
  execution_history : List String
  deriving DecidableEq

/-! ## PlanResponseParser (`GoalDecomposer._parse_response`) -/

/-- The parser's current-section tag (Python uses the strings `"strategy"`,
`"steps"`, `"reasoning"`). -/
inductive Sec where
  | strategy
  | steps
  | reasoning
  deriving DecidableEq

/-- The parser's loop state: the four accumulators plus the current-section
tag (`none` models Python's initial `current_section = None`). -/
structure PState where
  strategy_desc : String
  steps : List String
  reasoning : String
  points : Int
  current : Option Sec
  deriving DecidableEq

/-- The initial parser state. -/
def initPState : PState :=
  { strategy_desc := "", steps := [], reasoning := "", points := 0,
    current := none }

/-- One iteration of the `for line in sections` loop of `_parse_response`,
translated branch by branch from the Python `if`/`elif` chain. -/
def processLine (st : PState) (rawLine : String) : PState :=
  let line := pyStrip rawLine
  if line == "" then st
  else if strStarts (pyLower line) "strategy:" then
    { st with current := some Sec.strategy, strategy_desc := line }
  else if strStarts (pyLower line) "steps:" then
    { st with current := some Sec.steps }
  else if strStarts (pyLower line) "reasoning:" then
    { st with current := some Sec.reasoning,
              reasoning := pyStrip (afterColon line) }
  else if strStarts (pyLower line) "points:" then
    match pyInt (pyStrip (afterColon line)) with
    | some n => { st with points := n }
    | none => st
  else if st.current == some Sec.steps && strStarts line "-" then
    { st with steps := st.steps ++ [pyStrip (pyStripChars ['-', ' '] line)] }
  else if st.current == some Sec.reasoning &&
      !(strStarts (pyLower line) "points:") then
    { st with reasoning := st.reasoning ++ " " ++ line }
  else st

/-- `GoalDecomposer._parse_response`: split on newlines, run the line loop,
assemble the `StrategyPlan`. -/
def parse_response (response : String) : StrategyPlan :=
  let sections := pySplitNL response
  let st := sections.foldl processLine initPState
  { steps := st.steps,
    reasoning := pyStrip st.reasoning,
    estimated_points := st.points,
    metadata := { strategy_description := st.strategy_desc,
                  raw_response := response } }

/-! ## PlanValidator (`GoalDecomposer._validate_strategy`) -/

/-- The five named error conditions of `_validate_strategy` (each a distinct
`ValueError` message in Python; the spec names them `EmptyPlan`,
`MissingReasoning`, `InvalidPointEstimate`, `BudgetExceeded`,
`InsufficientCriteriaCoverage`). -/
inductive VError where
  | emptyPlan
  | missingReasoning
  | invalidPointEstimate
  | budgetExceeded
  | insufficientCriteriaCoverage
  deriving DecidableEq

/-- The `ValueError` message text each condition carries in Python. -/
def vErrorMsg : VError → String
  | .emptyPlan => "Strategy has no steps"
  | .missingReasoning => "Strategy has no reasoning"
  | .invalidPointEstimate => "Invalid point estimate"
  | .budgetExceeded => "Strategy exceeds available budget"
  | .insufficientCriteriaCoverage =>
      "Strategy does not cover enough validation criteria"

/-- The inner word loop of the coverage check: a criterion is covered when
some step's lowercased text contains, as a substring, some
whitespace-separated word of the lowercased criterion of length greater
than 3. -/
def criterionCovered (steps : List String) (criterion : String) : Bool :=
  steps.any fun step =>
    (pySplitWs (pyLower criterion)).any fun word =>
      decide (3 < word.length) && strContains (pyLower step) word

/-- The distinct criteria added to the Python set `criteria_covered` (a set,
so duplicate criteria are counted once). -/
def coveredCriteria (steps criteria : List String) : List String :=
  (criteria.filter (fun c => criterionCovered steps c)).dedup

/-- `GoalDecomposer._validate_strategy`, with each `raise ValueError`
becoming an `Except.error`. -/
def validate_strategy (strategy : StrategyPlan) (context : TaskContext) :
    Except VError Unit :=
  if strategy.steps = [] then .error .emptyPlan
  else if strategy.reasoning = "" then .error .missingReasoning
  else if strategy.estimated_points ≤ 0 then .error .invalidPointEstimate
  else if context.total_budget < strategy.estimated_points then
    .error .budgetExceeded
  else
    match context.goal with
    | none => .ok ()
    | some goal =>
      if goal.validation_criteria = [] then .ok ()
      else if ((coveredCriteria strategy.steps goal.validation_criteria).length : ℚ) <
          (goal.validation_criteria.length : ℚ) * goal.success_threshold then
        .error .insufficientCriteriaCoverage
      else .ok ()

/-! ## GoalDecomposer orchestration (`decompose_goal`) -/

/-- The two failure shapes of `decompose_goal`: the pre-call `ValueError`s
(the spec's `InvalidContext`) and the catch-all wrapper around anything
raised after entering the `try` block (the spec's `DecompositionFailed`). -/
inductive DecomposeError where
  | invalidContext (msg : String)
  | decompositionFailed (msg : String)
  deriving DecidableEq

/-- `GoalDecomposer._create_user_prompt` (the goal is passed explicitly; the
caller has already established `context.goal = some g`). -/
def create_user_prompt (context : TaskContext) (g : Goal) : String :=
  "Goal: " ++ g.description ++ "\n\nValidation Criteria:\n" ++
  String.intercalate "\n" (g.validation_criteria.map (fun c => "- " ++ c)) ++
  "\n\nCurrent State:\n- Git Hash: " ++ context.state.git_hash ++
  "\n- Description: " ++ context.state.description ++
  "\n\nContext:\n- Iteration: " ++ toString context.iteration ++
  "\n- Points Consumed: " ++ toString context.points_consumed ++
  "\n- Total Budget: " ++ toString context.total_budget ++
  "\n\nPlease provide a detailed strategy plan for achieving this goal."

/-- `GoalDecomposer.decompose_goal`.  The external model interface is the
oracle `llm` (prompt to response text, or a transport error); the second
component of the result is the list of prompts actually submitted to the
oracle, so an empty list means no external model call was issued. -/
def decompose_goal (llm : String → Except String String)
    (context : TaskContext) :
    Except DecomposeError StrategyPlan × List String :=
  match context.goal with
  | none => (.error (.invalidContext "No goal provided in context"), [])
  | some g =>
    if context.total_budget ≤ 0 then
      (.error (.invalidContext "Invalid points budget"), [])
    else
      let prompt := create_user_prompt context g
      match llm prompt with
      | .error e =>
          (.error (.decompositionFailed
            ("Error during goal decomposition: " ++ e)), [prompt])
      | .ok text =>
          let strategy := parse_response text
          match validate_strategy strategy context with
          | .error ve =>
              (.error (.decompositionFailed
                ("Error during goal decomposition: " ++ vErrorMsg ve)),
               [prompt])
          | .ok _ => (.ok strategy, [prompt])

/-! ## RepositoryStateManager (`tools.py`) -/

/-- Captured output of one git subprocess invocation. -/
structure CmdResult where
  exitCode : Int
  stdout : String
  stderr : String
  deriving DecidableEq

/-- The external repository world as the git layer observes it: whether the
path and its `.git` directory exist, and what each underlying git command
would return if invoked. -/
structure RepoEnv where
  path : String
  pathExists : Bool
  hasGitDir : Bool
  status : CmdResult
  revParseHead : CmdResult
  reset : CmdResult
  checkout : CmdResult
  deriving DecidableEq

/-- The dictionary returned by `check_repo_state`. -/
structure RepoState where
  is_clean : Bool
  has_uncommitted : Bool
  has_untracked : Bool
  has_merge_conflicts : Bool
  has_rebase_conflicts : Bool
  deriving DecidableEq

/-- The two exception kinds raised by `tools.py`: Python `ValueError` and
`RuntimeError`, each carrying its message. -/
inductive ToolError where
  | valueError (msg : String)
  | runtimeError (msg : String)
  deriving DecidableEq

/-- `tools.check_repo_state` (the spec's `inspect`). -/
def check_repo_state (env : RepoEnv) : Except ToolError RepoState :=
  if !env.pathExists then
    .error (.valueError ("Repository path does not exist: " ++ env.path))
  else if !env.hasGitDir then
    .error (.valueError ("Not a git repository: " ++ env.path))
  else if env.status.exitCode ≠ 0 then
    .error (.runtimeError ("Git status failed: " ++ env.status.stderr))
  else
    let status := env.status.stdout
    let has_uncommitted := status != ""
    let has_untracked :=
      (pySplitlines status).any (fun l => strStarts l "??")
    .ok { is_clean := !(has_uncommitted || has_untracked),
          has_uncommitted := has_uncommitted,
          has_untracked := has_untracked,
          has_merge_conflicts := false,
          has_rebase_conflicts := false }

/-- `tools.get_current_hash` (the spec's `currentHash`). -/
def get_current_hash (env : RepoEnv) : Except ToolError String :=
  if env.revParseHead.exitCode ≠ 0 then
    .error (.runtimeError ("Failed to get current hash: " ++
      env.revParseHead.stderr))
  else .ok (pyStrip env.revParseHead.stdout)

/-- `tools.revert_to_hash` (the spec's `revertTo`).  The second component
lists the mutating git commands actually issued; the repository can only
change through issued commands, so an empty list means the repository (in
particular its current hash) is untouched. -/
def revert_to_hash (env : RepoEnv) : Except ToolError Unit × List String :=
  match check_repo_state env with
  | .error e => (.error e, [])
  | .ok state =>
    if !state.is_clean then
      (.error (.runtimeError "Cannot revert: repository has uncommitted changes"), [])
    else if env.reset.exitCode ≠ 0 then
      (.error (.runtimeError ("Failed to revert to hash: " ++
        env.reset.stderr)), ["git reset --hard"])
    else (.ok (), ["git reset --hard"])

/-- `tools.checkout_branch` (the spec's `checkout`), instrumented like
`revert_to_hash`. -/
def checkout_branch (env : RepoEnv) : Except ToolError Unit × List String :=
  match check_repo_state env with
  | .error e => (.error e, [])
  | .ok state =>
    if !state.is_clean then
      (.error (.runtimeError "Cannot checkout: repository has uncommitted changes"), [])
    else if env.checkout.exitCode ≠ 0 then
      (.error (.runtimeError ("Failed to checkout branch: " ++
        env.checkout.stderr)), ["git checkout"])
    else (.ok (), ["git checkout"])

/-- `tools.validate_repository_state` (the spec's `validateState`). -/
def validate_repository_state (env : RepoEnv) (expected_hash : String) :
    Except ToolError Unit :=
  match check_repo_state env with
  | .error e => .error e
  | .ok state =>
    if !state.is_clean then
      .error (.valueError "Repository is not in a clean state")
    else
      match get_current_hash env with
      | .error e => .error e
      | .ok current_hash =>
        if current_hash ≠ expected_hash then
          .error (.valueError ("Repository hash mismatch. Expected: " ++
            expected_hash ++ ", Got: " ++ current_hash))
        else .ok ()

example : parse_response "Strategy: Use TDD\nSteps:\n- Write test\n- Implement\nReasoning: because it is safe\nPoints: 5" =
    { steps := ["Write test", "Implement"],
      reasoning := "because it is safe",
      estimated_points := 5,
      metadata := { strategy_description := "Strategy: Use TDD",
                    raw_response := "Strategy: Use TDD\nSteps:\n- Write test\n- Implement\nReasoning: because it is safe\nPoints: 5" } } := by
  decide

example : coveredCriteria ["Write tests that pass", "Ship code"]
    ["Tests pass", "Documentation updated"] = ["Tests pass"] := by decide

/-! ## Helper lemmas -/

/-- Two list prefixes of the same list are comparable. -/
lemma listStarts_comparable : ∀ (l p q : List Char),
    listStarts l p = true → listStarts l q = true →
    listStarts p q = true ∨ listStarts q p = true := by
  intro l
  induction l with
  | nil =>
    intro p q hp hq
    cases p with
    | nil =>
      cases q with
      | nil => exact Or.inl rfl
      | cons c cs => simp [listStarts] at hq
    | cons b bs => simp [listStarts] at hp
  | cons a as ih =>
    intro p q hp hq
    cases p with
    | nil => right; cases q <;> rfl
    | cons b bs =>
      cases q with
      | nil => left; rfl
      | cons c cs =>
        simp only [listStarts, Bool.and_eq_true, beq_iff_eq] at hp hq
        obtain ⟨hab, hp'⟩ := hp
        obtain ⟨hac, hq'⟩ := hq
        subst hab; subst hac
        rcases ih bs cs hp' hq' with h | h
        · left; simp [listStarts, h]
        · right; simp [listStarts, h]

/-- A string cannot start with two incomparable header tokens at once. -/
lemma strStarts_excl (t p q : String)
    (hpq : listStarts p.data q.data = false)
    (hqp : listStarts q.data p.data = false)
    (h : strStarts t p = true) : strStarts t q = false := by
  by_contra hq
  rw [Bool.not_eq_false] at hq
  rcases listStarts_comparable t.data p.data q.data h hq with hh | hh
  · rw [hpq] at hh; cases hh
  · rw [hqp] at hh; cases hh

/-- Only the empty string is a prefix of the empty string. -/
lemma eq_empty_of_strStarts_empty (p : String)
    (h : strStarts "" p = true) : p = "" := by
  obtain ⟨pd⟩ := p
  cases pd with
  | nil => rfl
  | cons c cs => simp [strStarts, listStarts] at h

/-- Lowercasing the empty string gives the empty string. -/
lemma pyLower_empty : pyLower "" = "" := rfl

/-- A string whose lowercasing starts with a non-empty token is itself
non-empty (in `==` form, as tested by `processLine`). -/
lemma beq_empty_false_of_lower_starts (t p : String)
    (hp : strStarts (pyLower t) p = true) (hne : p ≠ "") :
    (t == "") = false := by
  rw [beq_eq_false_iff_ne]
  intro h
  subst h
  rw [pyLower_empty] at hp
  exact hne (eq_empty_of_strStarts_empty p hp)

/-- Characterization of a successful `check_repo_state`: how every field of
the returned dictionary is computed from the status output. -/
lemma check_repo_state_ok_iff (env : RepoEnv) (st : RepoState)
    (h : check_repo_state env = .ok st) :
    st.is_clean = !(st.has_uncommitted || st.has_untracked) ∧
    st.has_uncommitted = (env.status.stdout != "") ∧
    st.has_untracked =
      (pySplitlines env.status.stdout).any (fun l => strStarts l "??") ∧
    st.has_merge_conflicts = false ∧
    st.has_rebase_conflicts = false := by
  simp only [check_repo_state] at h
  split_ifs at h with h1 h2 h3
  all_goals
    first
      | exact Except.noConfusion h
      | (injection h with h'; subst h'; exact ⟨rfl, rfl, rfl, rfl, rfl⟩)

/-! ## Concrete fixtures -/

/-- A repository whose status output reports a modified tracked file. -/
def envDirty : RepoEnv :=
  { path := "/repo", pathExists := true, hasGitDir := true,
    status := ⟨0, " M file.txt\n", ""⟩,
    revParseHead := ⟨0, "abc123\n", ""⟩,
    reset := ⟨0, "", ""⟩, checkout := ⟨0, "", ""⟩ }

/-- A repository whose status output reports only an untracked file. -/
def envUntracked : RepoEnv :=
  { path := "/repo", pathExists := true, hasGitDir := true,
    status := ⟨0, "?? new.txt\n", ""⟩,
    revParseHead := ⟨0, "abc123\n", ""⟩,
    reset := ⟨0, "", ""⟩, checkout := ⟨0, "", ""⟩ }

/-- A clean repository at hash `abc123`. -/
def envClean : RepoEnv :=
  { path := "/repo", pathExists := true, hasGitDir := true,
    status := ⟨0, "", ""⟩,
    revParseHead := ⟨0, "abc123\n", ""⟩,
    reset := ⟨0, "", ""⟩, checkout := ⟨0, "", ""⟩ }

/-- The state dictionary `check_repo_state` returns for `envDirty`. -/
def stDirty : RepoState := ⟨false, true, false, false, false⟩

/-- The state dictionary `check_repo_state` returns for `envUntracked`. -/
def stUntracked : RepoState := ⟨false, true, true, false, false⟩

/-- The state dictionary `check_repo_state` returns for `envClean`. -/
def stClean : RepoState := ⟨true, false, false, false, false⟩

/-- A sample repository snapshot. -/
def stateEx : State := ⟨"abc123", "initial state", none⟩

/-- A sample goal with one validation criterion and threshold 1. -/
def goalEx : Goal := ⟨"Improve the test suite", ["Tests pass"], 1⟩

/-- A model oracle that always answers with the empty string. -/
def llmEmpty : String → Except String String := fun _ => .ok ""

/-- A context with a goal present but a zero points budget. -/
def ctxZeroBudget : TaskContext := ⟨stateEx, some goalEx, 0, 0, 0, []⟩

/-! ## Claims about the repository layer -/

/-- C9: whenever `check_repo_state` returns a result at all, that result has
`has_merge_conflicts = false` and `has_rebase_conflicts = false`
unconditionally, so the Conflicted state is never observable through it. -/
theorem c9_inspect_never_conflicted (env : RepoEnv) (st : RepoState)
    (h : check_repo_state env = .ok st) :
    st.has_merge_conflicts = false ∧ st.has_rebase_conflicts = false := by
  have hh := check_repo_state_ok_iff env st h
  exact ⟨hh.2.2.2.1, hh.2.2.2.2⟩

/-- Witness for C9 at a concrete repository. -/
theorem c9_witness :
    check_repo_state envUntracked = .ok stUntracked ∧
    stUntracked.has_merge_conflicts = false ∧
    stUntracked.has_rebase_conflicts = false :=
  ⟨rfl, c9_inspect_never_conflicted envUntracked stUntracked rfl⟩

/-- C10 counterexample: the flags returned by `check_repo_state` are not
determined solely by whether the status output is empty — two repositories
with equally non-empty status output disagree on `has_untracked`. -/
theorem c10_counterexample :
    check_repo_state envDirty = .ok stDirty ∧
    check_repo_state envUntracked = .ok stUntracked ∧
    (envDirty.status.stdout = "" ↔ envUntracked.status.stdout = "") ∧
    stDirty.has_untracked = false ∧
    stUntracked.has_untracked = true :=
  ⟨rfl, rfl, by decide, rfl, rfl⟩

/-- C10 (amended): every result of `check_repo_state` satisfies
`has_untracked → has_uncommitted` and `is_clean ↔ ¬has_uncommitted`;
`is_clean` and `has_uncommitted` are determined solely by whether the status
output is empty, while `has_untracked` additionally depends on whether some
status line starts with `??` (untracked files being counted among
uncommitted changes). -/
theorem c10_flags_invariant (env : RepoEnv) (st : RepoState)
    (h : check_repo_state env = .ok st) :
    (st.has_untracked = true → st.has_uncommitted = true) ∧
    st.is_clean = !st.has_uncommitted ∧
    st.has_uncommitted = (env.status.stdout != "") ∧
    st.is_clean = (env.status.stdout == "") ∧
    st.has_untracked =
      (pySplitlines env.status.stdout).any (fun l => strStarts l "??") := by
  obtain ⟨hc, hu, ht, -, -⟩ := check_repo_state_ok_iff env st h
  have himp : st.has_untracked = true → st.has_uncommitted = true := by
    intro hx
    rw [ht] at hx
    rw [hu]
    rcases List.any_eq_true.1 hx with ⟨l, hl, -⟩
    have hne : env.status.stdout ≠ "" := by
      intro hs
      rw [hs] at hl
      simp [pySplitlines, splitlinesAux] at hl
    simpa [bne_iff_ne] using hne
  have hclean : st.is_clean = !st.has_uncommitted := by
    rw [hc]
    cases hxu : st.has_uncommitted with
    | true => simp
    | false =>
      cases hxt : st.has_untracked with
      | false => simp
      | true => simp [himp hxt] at hxu
  refine ⟨himp, hclean, hu, ?_, ht⟩
  rw [hclean, hu]
  simp [bne, Bool.not_not]

/-- Witness for C10's amended theorem at a concrete repository. -/
theorem c10_witness :
    check_repo_state envUntracked = .ok stUntracked ∧
    (stUntracked.has_untracked = true → stUntracked.has_uncommitted = true) ∧
    stUntracked.is_clean = !stUntracked.has_uncommitted :=
  ⟨rfl, (c10_flags_invariant envUntracked stUntracked rfl).1,
    (c10_flags_invariant envUntracked stUntracked rfl).2.1⟩

/-- C3: when the status query reports uncommitted changes, `revert_to_hash`
and `checkout_branch` both fail with the precondition error, and the list of
mutating git commands they issued is empty — the cleanliness check happens
before the reset/checkout command, so the repository (in particular its
current hash) is untouched. -/
theorem c3_dirty_precondition (env : RepoEnv) (st : RepoState)
    (h : check_repo_state env = .ok st) (hd : st.has_uncommitted = true) :
    revert_to_hash env =
      (.error (.runtimeError "Cannot revert: repository has uncommitted changes"),
       []) ∧
    checkout_branch env =
      (.error (.runtimeError "Cannot checkout: repository has uncommitted changes"),
       []) := by
  have hcl : st.is_clean = false := by
    obtain ⟨hc, -, -, -, -⟩ := check_repo_state_ok_iff env st h
    rw [hc, hd]
    simp
  constructor
  · simp [revert_to_hash, h, hcl]
  · simp [checkout_branch, h, hcl]

/-- Witness for C3 at a concrete dirty repository. -/
theorem c3_witness :
    check_repo_state envDirty = .ok stDirty ∧
    stDirty.has_uncommitted = true ∧
    revert_to_hash envDirty =
      (.error (.runtimeError "Cannot revert: repository has uncommitted changes"),
       []) ∧
    checkout_branch envDirty =
      (.error (.runtimeError "Cannot checkout: repository has uncommitted changes"),
       []) :=
  ⟨rfl, rfl, (c3_dirty_precondition envDirty stDirty rfl rfl).1,
    (c3_dirty_precondition envDirty stDirty rfl rfl).2⟩

/-- C4: given that the status query and the hash query themselves succeed,
`validate_repository_state` succeeds iff the repository is clean and the
current hash equals the expected one; in each other case it fails with a
`ValueError` (the spec's `StateMismatch`). -/
theorem c4_validate_state (env : RepoEnv) (h : String) (st : RepoState)
    (cur : String) (hc : check_repo_state env = .ok st)
    (hh : get_current_hash env = .ok cur) :
    (validate_repository_state env h = .ok () ↔
      st.is_clean = true ∧ cur = h) ∧
    (st.is_clean = false →
      validate_repository_state env h =
        .error (.valueError "Repository is not in a clean state")) ∧
    (st.is_clean = true → cur ≠ h →
      validate_repository_state env h =
        .error (.valueError ("Repository hash mismatch. Expected: " ++ h ++
          ", Got: " ++ cur))) := by
  refine ⟨?_, ?_, ?_⟩
  · cases hcl : st.is_clean with
    | false =>
      simp [validate_repository_state, hc, hcl]
    | true =>
      by_cases hne : cur = h
      · subst hne
        simp [validate_repository_state, hc, hh, hcl]
      · simp [validate_repository_state, hc, hh, hcl, hne]
  · intro hcl
    simp [validate_repository_state, hc, hcl]
  · intro hcl hne
    simp [validate_repository_state, hc, hh, hcl, hne]

/-- Witness for C4 at a concrete clean repository. -/
theorem c4_witness :
    check_repo_state envClean = .ok stClean ∧
    get_current_hash envClean = .ok "abc123" ∧
    validate_repository_state envClean "abc123" = .ok () :=
  ⟨rfl, rfl,
    (c4_validate_state envClean "abc123" stClean "abc123" rfl rfl).1.mpr
      ⟨rfl, rfl⟩⟩

/-! ## Claims about the decomposition orchestration -/

/-- C5: with a missing goal or a non-positive budget, `decompose_goal` fails
immediately with the corresponding `ValueError` (the spec's
`InvalidContext`, not wrapped in the spec's `DecompositionFailed`) and the
list of prompts submitted to the model oracle is empty. -/
theorem c5_invalid_context (llm : String → Except String String)
    (ctx : TaskContext) :
    (ctx.goal = none →
      decompose_goal llm ctx =
        (.error (.invalidContext "No goal provided in context"), [])) ∧
    (∀ g, ctx.goal = some g → ctx.total_budget ≤ 0 →
      decompose_goal llm ctx =
        (.error (.invalidContext "Invalid points budget"), [])) := by
  constructor
  · intro hg
    simp [decompose_goal, hg]
  · intro g hg hb
    simp [decompose_goal, hg, hb]

/-- Witness for C5 at a concrete zero-budget context. -/
theorem c5_witness :
    ctxZeroBudget.total_budget ≤ 0 ∧
    decompose_goal llmEmpty ctxZeroBudget =
      (.error (.invalidContext "Invalid points budget"), []) :=
  ⟨by decide,
    (c5_invalid_context llmEmpty ctxZeroBudget).2 goalEx rfl (by decide)⟩

/-! ## Claims about the parser -/

/-- C7: the parser applied to the given exact input text returns the claimed
steps, reasoning and point estimate. -/
theorem c7_parser_round_trip :
    (parse_response "Strategy: Use TDD\nSteps:\n- Write test\n- Implement\nReasoning: because it is safe\nPoints: 5").steps
      = ["Write test", "Implement"] ∧
    (parse_response "Strategy: Use TDD\nSteps:\n- Write test\n- Implement\nReasoning: because it is safe\nPoints: 5").reasoning
      = "because it is safe" ∧
    (parse_response "Strategy: Use TDD\nSteps:\n- Write test\n- Implement\nReasoning: because it is safe\nPoints: 5").estimated_points
      = 5 :=
  ⟨by decide, by decide, by decide⟩

/-- C6 counterexample: a `points:` header line does not switch the parser's
current-section tag — after `Points: 5` the following non-header line is
still appended to the reasoning section that was current before it, so the
parsed reasoning is `a more text` rather than `a` as the claim would
require. -/
theorem c6_counterexample :
    (parse_response "Reasoning: a\nPoints: 5\nmore text").reasoning
      = "a more text" ∧
    (parse_response "Reasoning: a\nPoints: 5\nmore text").reasoning ≠ "a" :=
  ⟨by decide, by decide⟩

/-- C6 (amended): lines whose stripped lowercase form starts with
`strategy:`, `steps:` or `reasoning:` switch the current-section tag to the
corresponding section, while a line starting with `points:` updates the
point value only and leaves the current-section tag unchanged, so
subsequent non-header lines are still appended to the previously current
section. -/
theorem c6_header_section_switch (st : PState) (line : String) :
    (strStarts (pyLower (pyStrip line)) "strategy:" = true →
      (processLine st line).current = some Sec.strategy) ∧
    (strStarts (pyLower (pyStrip line)) "steps:" = true →
      (processLine st line).current = some Sec.steps) ∧
    (strStarts (pyLower (pyStrip line)) "reasoning:" = true →
      (processLine st line).current = some Sec.reasoning) ∧
    (strStarts (pyLower (pyStrip line)) "points:" = true →
      (processLine st line).current = st.current) := by
  refine ⟨?_, ?_, ?_, ?_⟩
  · intro h
    have hne := beq_empty_false_of_lower_starts _ _ h (by decide)
    simp [processLine, hne, h]
  · intro h
    have hne := beq_empty_false_of_lower_starts _ _ h (by decide)
    have h1 := strStarts_excl _ "steps:" "strategy:" (by decide) (by decide) h
    simp [processLine, hne, h, h1]
  · intro h
    have hne := beq_empty_false_of_lower_starts _ _ h (by decide)
    have h1 := strStarts_excl _ "reasoning:" "strategy:" (by decide) (by decide) h
    have h2 := strStarts_excl _ "reasoning:" "steps:" (by decide) (by decide) h
    simp [processLine, hne, h, h1, h2]
  · intro h
    have hne := beq_empty_false_of_lower_starts _ _ h (by decide)
    have h1 := strStarts_excl _ "points:" "strategy:" (by decide) (by decide) h
    have h2 := strStarts_excl _ "points:" "steps:" (by decide) (by decide) h
    have h3 := strStarts_excl _ "points:" "reasoning:" (by decide) (by decide) h
    simp only [processLine, hne, h, h1, h2, h3]
    simp only [Bool.false_eq_true, if_false, if_true]
    cases hpi : pyInt (pyStrip (afterColon (pyStrip line))) <;> simp [hpi]

/-- Witness for C6's amended theorem at a concrete `points:` line. -/
theorem c6_witness :
    strStarts (pyLower (pyStrip "Points: 7")) "points:" = true ∧
    (processLine initPState "Points: 7").current = initPState.current :=
  ⟨by decide,
    (c6_header_section_switch initPState "Points: 7").2.2.2 (by decide)⟩

/-- A model response whose `points:` line does not parse as an integer. -/
def c8text : String :=
  "Strategy: improve\nSteps:\n- run tests\nReasoning: fine\nPoints: many"

/-- A context with goal present and budget 10, used against `c8text`. -/
def c8ctx : TaskContext := ⟨stateEx, some goalEx, 0, 0, 10, []⟩

/-- C8: `parse_response` is a total Lean function (it returns a plan for
every input; no exceptional path exists in the embedding), and a `points:`
line whose remainder does not parse as an integer is silently ignored —
the whole parser state is left unchanged; on the concrete input `c8text`
the plan keeps the default `estimated_points = 0`, which the validator then
rejects as `invalidPointEstimate`. -/
theorem c8_nonnumeric_points_ignored (st : PState) (line : String)
    (hp : strStarts (pyLower (pyStrip line)) "points:" = true)
    (hn : pyInt (pyStrip (afterColon (pyStrip line))) = none) :
    processLine st line = st ∧
    (parse_response c8text).estimated_points = 0 ∧
    validate_strategy (parse_response c8text) c8ctx =
      .error .invalidPointEstimate := by
  refine ⟨?_, by decide, rfl⟩
  have hne := beq_empty_false_of_lower_starts _ _ hp (by decide)
  have h1 := strStarts_excl _ "points:" "strategy:" (by decide) (by decide) hp
  have h2 := strStarts_excl _ "points:" "steps:" (by decide) (by decide) hp
  have h3 := strStarts_excl _ "points:" "reasoning:" (by decide) (by decide) hp
  simp [processLine, hne, hp, h1, h2, h3, hn]

/-- Witness for C8 at the concrete line `Points: many`. -/
theorem c8_witness :
    strStarts (pyLower (pyStrip "Points: many")) "points:" = true ∧
    pyInt (pyStrip (afterColon (pyStrip "Points: many"))) = none ∧
    processLine initPState "Points: many" = initPState :=
  ⟨by decide, by decide,
    (c8_nonnumeric_points_ignored initPState "Points: many" (by decide)
      (by decide)).1⟩

/-! ## Claims about the validator -/

/-- The coverage acceptance condition: the number of distinct covered
criteria is at least the number of criteria times the goal's success
threshold. -/
def coverageOK (steps : List String) (g : Goal) : Prop :=
  (g.validation_criteria.length : ℚ) * g.success_threshold ≤
    ((coveredCriteria steps g.validation_criteria).length : ℚ)

/-- Acceptance characterization of `validate_strategy`: a plan is accepted
iff all five checks pass (the coverage check being vacuous when the goal is
absent or has no validation criteria). -/
lemma validate_ok_iff (p : StrategyPlan) (ctx : TaskContext) :
    validate_strategy p ctx = .ok () ↔
      (p.steps ≠ [] ∧ p.reasoning ≠ "" ∧ 0 < p.estimated_points ∧
       p.estimated_points ≤ ctx.total_budget ∧
       ∀ g, ctx.goal = some g → g.validation_criteria ≠ [] →
         coverageOK p.steps g) := by
  by_cases h1 : p.steps = []
  · simp [validate_strategy, h1]
  by_cases h2 : p.reasoning = ""
  · simp [validate_strategy, h1, h2]
  by_cases h3 : p.estimated_points ≤ 0
  · have h3' : ¬ (0 < p.estimated_points) := by omega
    simp [validate_strategy, h1, h2, h3, h3']
  by_cases h4 : ctx.total_budget < p.estimated_points
  · have h4' : ¬ (p.estimated_points ≤ ctx.total_budget) := by omega
    simp [validate_strategy, h1, h2, h3, h4, h4']
  have h3' : 0 < p.estimated_points := by omega
  have h4' : p.estimated_points ≤ ctx.total_budget := by omega
  rcases hg : ctx.goal with _ | g
  · simp [validate_strategy, h1, h2, h3, h4, hg, h3', h4']
  · by_cases h5 : g.validation_criteria = []
    · simp [validate_strategy, h1, h2, h3, h4, hg, h3', h4', h5]
    · by_cases h6 : ((coveredCriteria p.steps g.validation_criteria).length : ℚ) <
          (g.validation_criteria.length : ℚ) * g.success_threshold
      · have hnc : ¬ coverageOK p.steps g := by
          simpa [coverageOK, not_le] using h6
        simp [validate_strategy, h1, h2, h3, h4, hg, h3', h4', h5, h6]
        intro hcov
        exact absurd hcov hnc
      · have hcv : coverageOK p.steps g := by
          simpa [coverageOK, not_lt] using h6
        simp [validate_strategy, h1, h2, h3, h4, hg, h3', h4', h5, h6, hcv]

/-- With the first four checks passed and a goal carrying criteria, the
validator reduces to the coverage comparison. -/
lemma validate_eq_coverage (p : StrategyPlan) (ctx : TaskContext) (g : Goal)
    (hg : ctx.goal = some g) (hcrit : g.validation_criteria ≠ [])
    (h1 : p.steps ≠ []) (h2 : p.reasoning ≠ "")
    (h3 : ¬ p.estimated_points ≤ 0)
    (h4 : ¬ ctx.total_budget < p.estimated_points) :
    validate_strategy p ctx =
      if ((coveredCriteria p.steps g.validation_criteria).length : ℚ) <
          (g.validation_criteria.length : ℚ) * g.success_threshold then
        .error .insufficientCriteriaCoverage
      else .ok () := by
  simp only [validate_strategy, hg]
  rw [if_neg h1, if_neg h2, if_neg h3, if_neg h4, if_neg hcrit]

/-- A plan passing all five checks against `ctxOk`. -/
def planOk : StrategyPlan := ⟨["run tests now"], "sound", 5, ⟨"", ""⟩⟩

/-- A context with goal `goalEx` (one criterion, threshold 1) and budget 10. -/
def ctxOk : TaskContext := ⟨stateEx, some goalEx, 0, 0, 10, []⟩

/-- C2: `validate_strategy` performs the five checks in order — empty steps,
empty reasoning, non-positive points, points over budget, then coverage
(skipped entirely when the goal is absent or has no validation criteria) —
each failing with its own distinct error, and it accepts a plan iff all
five checks pass. -/
theorem c2_validate_five_checks (p : StrategyPlan) (ctx : TaskContext) :
    (validate_strategy p ctx = .ok () ↔
      (p.steps ≠ [] ∧ p.reasoning ≠ "" ∧ 0 < p.estimated_points ∧
       p.estimated_points ≤ ctx.total_budget ∧
       ∀ g, ctx.goal = some g → g.validation_criteria ≠ [] →
         coverageOK p.steps g)) ∧
    (p.steps = [] → validate_strategy p ctx = .error .emptyPlan) ∧
    (p.steps ≠ [] → p.reasoning = "" →
      validate_strategy p ctx = .error .missingReasoning) ∧
    (p.steps ≠ [] → p.reasoning ≠ "" → p.estimated_points ≤ 0 →
      validate_strategy p ctx = .error .invalidPointEstimate) ∧
    (p.steps ≠ [] → p.reasoning ≠ "" → 0 < p.estimated_points →
      ctx.total_budget < p.estimated_points →
      validate_strategy p ctx = .error .budgetExceeded) ∧
    (∀ g, ctx.goal = some g → p.steps ≠ [] → p.reasoning ≠ "" →
      0 < p.estimated_points → p.estimated_points ≤ ctx.total_budget →
      g.validation_criteria ≠ [] → ¬ coverageOK p.steps g →
      validate_strategy p ctx = .error .insufficientCriteriaCoverage) ∧
    ((ctx.goal = none ∨ ∃ g, ctx.goal = some g ∧ g.validation_criteria = []) →
      p.steps ≠ [] → p.reasoning ≠ "" → 0 < p.estimated_points →
      p.estimated_points ≤ ctx.total_budget →
      validate_strategy p ctx = .ok ()) := by
  refine ⟨validate_ok_iff p ctx, ?_, ?_, ?_, ?_, ?_, ?_⟩
  · intro h
    simp [validate_strategy, h]
  · intro h1 h2
    simp [validate_strategy, h1, h2]
  · intro h1 h2 h3
    simp [validate_strategy, h1, h2, h3]
  · intro h1 h2 h3 h4
    have h3' : ¬ p.estimated_points ≤ 0 := by omega
    simp [validate_strategy, h1, h2, h3', h4]
  · intro g hg h1 h2 h3 h4 hcrit hnc
    have h3' : ¬ p.estimated_points ≤ 0 := by omega
    have h4' : ¬ ctx.total_budget < p.estimated_points := by omega
    rw [validate_eq_coverage p ctx g hg hcrit h1 h2 h3' h4']
    have hlt : ((coveredCriteria p.steps g.validation_criteria).length : ℚ) <
        (g.validation_criteria.length : ℚ) * g.success_threshold := by
      simpa [coverageOK, not_le] using hnc
    rw [if_pos hlt]
  · rintro (hg | ⟨g, hg, hcrit⟩) h1 h2 h3 h4 <;>
      refine (validate_ok_iff p ctx).mpr ⟨h1, h2, h3, h4, ?_⟩
    · intro g' hg' _
      rw [hg] at hg'
      exact Option.noConfusion hg'
    · intro g' hg' hcrit'
      rw [hg, Option.some_inj] at hg'
      subst hg'
      exact absurd hcrit hcrit'

/-- Witness for C2: a concrete plan that passes all five checks is
accepted. -/
theorem c2_witness : validate_strategy planOk ctxOk = .ok () :=
  (c2_validate_five_checks planOk ctxOk).1.mpr
    ⟨by decide, by decide, by decide, by decide, fun g hg hcrit => by
      have hcov : coveredCriteria planOk.steps ["Tests pass"] =
          ["Tests pass"] := by decide
      have hgg : g = goalEx := by
        rw [show ctxOk.goal = some goalEx from rfl, Option.some_inj] at hg
        exact hg.symm
      subst hgg
      simp [coverageOK, hcov, goalEx]⟩

/-- The worked coverage example: two steps against two criteria. -/
def examplePlan : StrategyPlan :=
  ⟨["Write tests that pass", "Ship code"], "ok", 5, ⟨"", ""⟩⟩

/-- The worked coverage example's goal, parameterized by the threshold. -/
def exampleGoal (t : ℚ) : Goal :=
  ⟨"release", ["Tests pass", "Documentation updated"], t⟩

/-- The worked coverage example's context, parameterized by the threshold. -/
def exampleCtx (t : ℚ) : TaskContext :=
  ⟨stateEx, some (exampleGoal t), 0, 0, 100, []⟩

/-- C1: the coverage check marks a criterion covered exactly when some
step's lowercased text contains, as a substring, some word of the
lowercased criterion longer than 3 characters; a plan passing the first
four checks passes validation iff the number of (distinct) covered
criteria is at least the number of criteria times the success threshold,
failing with `insufficientCriteriaCoverage` otherwise; in particular the
worked example validates at threshold 1/2 and fails at threshold 3/5. -/
theorem c1_coverage_check (p : StrategyPlan) (ctx : TaskContext) (g : Goal)
    (hg : ctx.goal = some g) (hcrit : g.validation_criteria ≠ [])
    (h1 : p.steps ≠ []) (h2 : p.reasoning ≠ "")
    (h3 : 0 < p.estimated_points)
    (h4 : p.estimated_points ≤ ctx.total_budget) :
    (∀ c ∈ g.validation_criteria,
      (criterionCovered p.steps c = true ↔
        ∃ s ∈ p.steps, ∃ w ∈ pySplitWs (pyLower c),
          3 < w.length ∧ strContains (pyLower s) w = true)) ∧
    (validate_strategy p ctx = .ok () ↔ coverageOK p.steps g) ∧
    (¬ coverageOK p.steps g →
      validate_strategy p ctx = .error .insufficientCriteriaCoverage) ∧
    validate_strategy examplePlan (exampleCtx (1/2)) = .ok () ∧
    validate_strategy examplePlan (exampleCtx (3/5)) =
      .error .insufficientCriteriaCoverage := by
  refine ⟨?_, ?_, ?_, ?_, ?_⟩
  · intro c _
    simp [criterionCovered, List.any_eq_true, Bool.and_eq_true,
      decide_eq_true_eq]
  · rw [validate_ok_iff]
    constructor
    · rintro ⟨-, -, -, -, hcov⟩
      exact hcov g hg hcrit
    · intro hcov
      refine ⟨h1, h2, h3, h4, ?_⟩
      intro g' hg' _
      rw [hg, Option.some_inj] at hg'
      subst hg'
      exact hcov
  · intro hnc
    have h3' : ¬ p.estimated_points ≤ 0 := by omega
    have h4' : ¬ ctx.total_budget < p.estimated_points := by omega
    rw [validate_eq_coverage p ctx g hg hcrit h1 h2 h3' h4']
    have hlt : ((coveredCriteria p.steps g.validation_criteria).length : ℚ) <
        (g.validation_criteria.length : ℚ) * g.success_threshold := by
      simpa [coverageOK, not_le] using hnc
    rw [if_pos hlt]
  · have hcov : coveredCriteria examplePlan.steps
        (exampleGoal (1/2)).validation_criteria = ["Tests pass"] := by decide
    refine (validate_ok_iff _ _).mpr
      ⟨by decide, by decide, by decide, by decide, ?_⟩
    intro g' hg' _
    have hgg : g' = exampleGoal (1/2) := by
      rw [show (exampleCtx (1/2)).goal = some (exampleGoal (1/2)) from rfl,
        Option.some_inj] at hg'
      exact hg'.symm
    subst hgg
    simp only [coverageOK, hcov]
    norm_num [exampleGoal]
  · have hcov : coveredCriteria examplePlan.steps
        (exampleGoal (3/5)).validation_criteria = ["Tests pass"] := by decide
    rw [validate_eq_coverage examplePlan (exampleCtx (3/5)) (exampleGoal (3/5))
      rfl (by decide) (by decide) (by decide) (by decide) (by decide)]
    have hlt : ((coveredCriteria examplePlan.steps
        (exampleGoal (3/5)).validation_criteria).length : ℚ) <
        ((exampleGoal (3/5)).validation_criteria.length : ℚ) *
          (exampleGoal (3/5)).success_threshold := by
      rw [hcov]
      norm_num [exampleGoal]
    rw [if_pos hlt]

/-- Witness for C1 at the worked example with threshold 1/2. -/
theorem c1_witness :
    validate_strategy examplePlan (exampleCtx (1/2)) = .ok () :=
  (c1_coverage_check examplePlan (exampleCtx (1/2)) (exampleGoal (1/2)) rfl
    (by decide) (by decide) (by decide) (by decide) (by decide)).2.2.2.1
